import Mathlib

/-!
# OneClickApply — screening pipeline, shallow embedding

A shallow embedding of the application-screening pipeline of the
OneClickApply repository, centred on `processApplicationAI`
(src/server/routes.ts, lines 258–339), the `screeningResults` table shape
(src/shared/schema.ts, lines 77–88), the optional OpenAI client
(src/server/openai.ts) and the manual trigger route `POST /api/ai/process`
(src/server/routes.ts, lines 223–228).

The storage collaborator (`storage.ts`) is not part of the provided
sources; its operations (`getApplication`, `getScreeningResult`,
`createScreeningResult`, `updateScreeningResult`) are modelled from the
spec's collaborator contracts (§6): a row store keyed by id, where an
update carries partial fields and a field absent from the update
(JavaScript `undefined`) leaves the column unchanged.

The provider call is modelled by a `Provider` parameter: `mock` when no
`OPENAI_API_KEY` is configured (the `openai` export is `null`), otherwise
`real o` where `o` is the outcome of the network call and JSON parse —
either a parsed response object with optional fields, or a failure
(transport error or unparseable body), which in the code surfaces as a
thrown exception caught by the orchestrator's `catch` block.
-/

namespace OneClickApply

/-- The `ai_status` column enum of `screening_results`
(src/shared/schema.ts line 87). -/
inductive AiStatus
  | pending
  | processing
  | complete
  | failed
deriving DecidableEq, Repr

/-- A row of the `screening_results` table (src/shared/schema.ts lines
77–88).  Nullable columns are `Option`s; `reasons` and `aiQuestions` are
JSON arrays of strings. -/
structure ScreeningResult where
  id : Nat
  applicationId : Nat
  rulesScore : Option Int
  semanticScore : Option Int
  finalScore : Option Int
  reasons : Option (List String)
  aiSummary : Option String
  aiQuestions : Option (List String)
  aiStatus : AiStatus
deriving DecidableEq, Repr

/-- A partial update passed to `storage.updateScreeningResult`: each field
is `some v` when the JavaScript object carries that key with value `v`,
and `none` when the key is absent/`undefined`, in which case the column
is left unchanged. -/
structure ScreeningUpdate where
  rulesScore : Option Int := none
  semanticScore : Option Int := none
  finalScore : Option Int := none
  reasons : Option (List String) := none
  aiSummary : Option String := none
  aiQuestions : Option (List String) := none
  aiStatus : Option AiStatus := none
deriving DecidableEq, Repr

/-- Apply a partial update to a row: present fields overwrite, absent
fields keep the prior value. -/
def applyUpdate (r : ScreeningResult) (u : ScreeningUpdate) : ScreeningResult :=
  { r with
    rulesScore := u.rulesScore <|> r.rulesScore
    semanticScore := u.semanticScore <|> r.semanticScore
    finalScore := u.finalScore <|> r.finalScore
    reasons := u.reasons <|> r.reasons
    aiSummary := u.aiSummary <|> r.aiSummary
    aiQuestions := u.aiQuestions <|> r.aiQuestions
    aiStatus := u.aiStatus.getD r.aiStatus }

/-- Job facts used by the prompt (title, description, required skills,
minimum years) — the fields of the `jobs` table that
`processApplicationAI` reads. -/
structure JobFacts where
  title : String
  description : String
  requiredSkills : List String
  minYears : Nat
deriving DecidableEq, Repr

/-- Candidate facts used by the prompt (email, profile skills, experience
years, resume text). -/
structure SeekerFacts where
  email : String
  skills : List String
  experienceYears : Nat
  resumeText : String
deriving DecidableEq, Repr

/-- An application joined with its job and its seeker's profile, as
returned by `storage.getApplication` (modelled from the spec's
`getApplicationWithContext(applicationId) -> {job, seeker+profile} | NotFound`:
when the application or its referenced job/seeker is missing the lookup
yields `none`). -/
structure AppCtx where
  id : Nat
  job : JobFacts
  seeker : SeekerFacts
deriving DecidableEq, Repr

/-- The persistent state the pipeline reads and writes: the application
lookup and the `screening_results` rows (with the next fresh row id). -/
structure Storage where
  applications : Nat → Option AppCtx
  screenings : List ScreeningResult
  nextId : Nat

/-- `storage.getScreeningResult(applicationId)`: the row owned by the
given application, if any. -/
def getScreeningResult (st : Storage) (applicationId : Nat) : Option ScreeningResult :=
  st.screenings.find? (fun r => r.applicationId == applicationId)

/-- `storage.createScreeningResult({applicationId, aiStatus})`: inserts a
fresh row with the given status; all other columns start null. -/
def createScreeningResult (st : Storage) (applicationId : Nat) (status : AiStatus) :
    Storage × ScreeningResult :=
  let row : ScreeningResult :=
    { id := st.nextId, applicationId := applicationId,
      rulesScore := none, semanticScore := none, finalScore := none,
      reasons := none, aiSummary := none, aiQuestions := none,
      aiStatus := status }
  ({ st with screenings := st.screenings ++ [row], nextId := st.nextId + 1 }, row)

/-- `storage.updateScreeningResult(id, partialFields)`: applies the
partial update to the row with the given id. -/
def updateScreeningResult (st : Storage) (id : Nat) (u : ScreeningUpdate) : Storage :=
  { st with screenings := st.screenings.map (fun r => if r.id == id then applyUpdate r u else r) }

/-- The provider's parsed JSON response.  Each field is `some v` when the
JSON object carries that key, `none` when it is missing (reading a
missing key in JavaScript yields `undefined`, which the update then
skips). -/
structure AIResponse where
  rulesScore : Option Int := none
  semanticScore : Option Int := none
  finalScore : Option Int := none
  reasons : Option (List String) := none
  summary : Option String := none
  questions : Option (List String) := none
deriving DecidableEq, Repr

/-- Outcome of the provider call: a parsed response, or a failure
(transport error or `JSON.parse` throwing on a malformed body). -/
inductive ProviderOutcome
  | success (resp : AIResponse)
  | failure
deriving DecidableEq, Repr

/-- Provider configuration (src/server/openai.ts): `mock` when
`OPENAI_API_KEY` is unset and the exported `openai` client is `null`;
otherwise `real o`, carrying the outcome of the one network call the run
makes. -/
inductive Provider
  | mock
  | real (o : ProviderOutcome)
deriving DecidableEq, Repr

/-- The fixed mock payload used when no key is configured
(src/server/routes.ts lines 311–318). -/
def mockResponse : AIResponse :=
  { rulesScore := some 85
    semanticScore := some 80
    finalScore := some 82
    reasons := some ["Matches required skills", "Good experience"]
    summary := some "Strong candidate with relevant experience."
    questions := some ["Describe your experience with React.",
                       "How do you handle state management?"] }

/-- The prompt string built from the joined application
(src/server/routes.ts lines 279–298), with the resume text excerpt capped
at 1000 characters. -/
def buildPrompt (app : AppCtx) : String :=
  "Job: " ++ app.job.title ++ "\nDescription: " ++ app.job.description ++
  "\nRequired Skills: " ++ String.intercalate ", " app.job.requiredSkills ++
  "\nCandidate: " ++ app.seeker.email ++
  "\nProfile Skills: " ++ String.intercalate ", " app.seeker.skills ++
  "\nExperience: " ++ toString app.seeker.experienceYears ++ " years" ++
  "\nResume Text: " ++ (app.seeker.resumeText.take 1000) ++ "..."

/-- The evaluation step (src/server/routes.ts lines 300–319): with no
client configured the fixed mock payload is returned without any call;
otherwise the provider is called with the prompt and its outcome is
whatever the network/parse produced. -/
def evaluate (p : Provider) (_prompt : String) : ProviderOutcome :=
  match p with
  | Provider.mock => ProviderOutcome.success mockResponse
  | Provider.real o => o

/-- The success write (src/server/routes.ts lines 321–329): each response
field is copied verbatim into the update (a missing response field is
`undefined` and hence skipped by the update), and `aiStatus` is set to
`complete`. -/
def successUpdate (resp : AIResponse) : ScreeningUpdate :=
  { rulesScore := resp.rulesScore
    semanticScore := resp.semanticScore
    finalScore := resp.finalScore
    reasons := resp.reasons
    aiSummary := resp.summary
    aiQuestions := resp.questions
    aiStatus := some AiStatus.complete }

/-- A persisted write performed by one pipeline run, for reasoning about
the sequence of states the database passes through. -/
inductive WriteEvent
  | created (row : ScreeningResult)
  | updated (id : Nat) (u : ScreeningUpdate)
deriving DecidableEq, Repr

/-- The `aiStatus` value a write stores, if it stores one. -/
def writeStatus : WriteEvent → Option AiStatus
  | WriteEvent.created row => some row.aiStatus
  | WriteEvent.updated _ u => u.aiStatus

/-- `processApplicationAI(applicationId)` (src/server/routes.ts lines
258–339) as a state transformer, also returning the trace of persisted
writes the run performed, in order.

- When the application lookup fails, the function returns at once:
  no writes (lines 261–262).
- Otherwise, if no screening row exists one is created with
  `aiStatus: "processing"` (lines 266–270); if one exists it is updated
  to `processing` whatever its prior state (line 272).
- The provider is then evaluated.  On success, one update writes the
  response fields and `complete` (lines 321–329).  On any thrown error
  the `catch` block re-reads the row and, when present, updates only
  `aiStatus` to `failed` (lines 331–338). -/
def processApplicationAI (st : Storage) (applicationId : Nat) (p : Provider) :
    Storage × List WriteEvent :=
  match st.applications applicationId with
  | none => (st, [])
  | some app =>
    let step1 : Storage × Nat × WriteEvent :=
      match getScreeningResult st applicationId with
      | none =>
          let c := createScreeningResult st applicationId AiStatus.processing
          (c.1, c.2.id, WriteEvent.created c.2)
      | some row =>
          let u : ScreeningUpdate := { aiStatus := some AiStatus.processing }
          (updateScreeningResult st row.id u, row.id, WriteEvent.updated row.id u)
    let st1 := step1.1
    let sid := step1.2.1
    let ev1 := step1.2.2
    match evaluate p (buildPrompt app) with
    | ProviderOutcome.success resp =>
        (updateScreeningResult st1 sid (successUpdate resp),
         [ev1, WriteEvent.updated sid (successUpdate resp)])
    | ProviderOutcome.failure =>
        match getScreeningResult st1 applicationId with
        | none => (st1, [ev1])
        | some row =>
            let u : ScreeningUpdate := { aiStatus := some AiStatus.failed }
            (updateScreeningResult st1 row.id u, [ev1, WriteEvent.updated row.id u])

/-- The HTTP response of the manual trigger route. -/
structure ApiResponse where
  status : Nat
  message : String
  bodyStatus : String
deriving DecidableEq, Repr

/-- The `POST /api/ai/process` handler (src/server/routes.ts lines
223–228) for a well-formed numeric `applicationId`: it fires
`processApplicationAI` without awaiting it and immediately responds
`200 {message: "Processing started", status: "pending"}`. -/
def aiProcessHandler (st : Storage) (applicationId : Nat) (p : Provider) :
    ApiResponse × Storage :=
  ({ status := 200, message := "Processing started", bodyStatus := "pending" },
   (processApplicationAI st applicationId p).1)

/-- Modelled from the spec: the Score Aggregator (§4.3), absent from the
source — `finalScore = round(0.4 × rulesScore + 0.6 × semanticScore)`,
clamped to [0,100] (round half up, on 0–100 integer inputs). -/
def specFinalScore (r s : Nat) : Nat :=
  min 100 ((4 * r + 6 * s + 5) / 10)

/-- A concrete joined application: the spec's end-to-end scenario A job
(required skills React and Node.js, `minYears` 5) and candidate (skills
React, Node.js, TypeScript; 6 years of experience). -/
def appA : AppCtx :=
  { id := 1
    job := { title := "Senior React Developer"
             description := "We are looking for an expert in React and Node.js."
             requiredSkills := ["React", "Node.js"]
             minYears := 5 }
    seeker := { email := "seeker@test.com"
                skills := ["React", "Node.js", "TypeScript"]
                experienceYears := 6
                resumeText := "" } }

/-- A concrete storage state holding scenario A's application (id 1) and
no screening rows yet. -/
def st0 : Storage :=
  { applications := fun i => if i == 1 then some appA else none
    screenings := []
    nextId := 1 }
/-- A second concrete joined application with entirely different facts,
for comparing two mock-mode runs. -/
def appB : AppCtx :=
  { id := 2
    job := { title := "Data Engineer"
             description := "Build data pipelines."
             requiredSkills := ["Python", "SQL"]
             minYears := 3 }
    seeker := { email := "other@test.com"
                skills := ["Java"]
                experienceYears := 1
                resumeText := "Ten years of Java." } }

/-- A storage state holding only application B (id 2) and no screening
rows. -/
def stB : Storage :=
  { applications := fun i => if i == 2 then some appB else none
    screenings := []
    nextId := 7 }

/-- A storage state with no applications at all. -/
def stNone : Storage :=
  { applications := fun _ => none
    screenings := []
    nextId := 1 }

/-- A screening row left by an earlier successful run: populated scores,
reasons, summary, questions, terminal `complete` status. -/
def rowPrior : ScreeningResult :=
  { id := 1, applicationId := 1
    rulesScore := some 85, semanticScore := some 80, finalScore := some 82
    reasons := some ["Matches required skills", "Good experience"]
    aiSummary := some "Strong candidate with relevant experience."
    aiQuestions := some ["Describe your experience with React.",
                         "How do you handle state management?"]
    aiStatus := AiStatus.complete }

/-- A storage state where application 1 already carries the screening row
`rowPrior` from an earlier successful run. -/
def stPrior : Storage :=
  { applications := fun i => if i == 1 then some appA else none
    screenings := [rowPrior]
    nextId := 2 }

/-- A provider response whose component scores are 0 and 0 but whose own
`finalScore` field is 50 — legal JSON the code accepts as-is. -/
def respWild : AIResponse :=
  { rulesScore := some 0, semanticScore := some 0, finalScore := some 50 }

/-- A provider response that parses as JSON but carries none of the
expected fields (every key missing). -/
def emptyResponse : AIResponse := {}

/-- A provider response whose numeric fields lie outside [0,100]. -/
def respOutOfRange : AIResponse :=
  { rulesScore := some (-5), semanticScore := some 150, finalScore := some 101 }

/-- C1 counterexample: a run that reaches the success write with component
scores 0 and 0 persists `finalScore` 50 — the raw provider value — while
`round(0.4 × 0 + 0.6 × 0)` clamped is 0.  The code has no aggregation
step: the provider-returned `finalScore` is persisted verbatim, so the
aggregation formula is not the source of the persisted value. -/
theorem C1_counterexample :
    getScreeningResult
        (processApplicationAI st0 1 (Provider.real (ProviderOutcome.success respWild))).1 1 =
      some { id := 1, applicationId := 1, rulesScore := some 0, semanticScore := some 0,
             finalScore := some 50, reasons := none, aiSummary := none, aiQuestions := none,
             aiStatus := AiStatus.complete } ∧
    specFinalScore 0 0 = 0 ∧ some (50 : Int) ≠ some (0 : Int) :=
  ⟨rfl, rfl, by decide⟩

/-- C1 (amended): the persisted `finalScore` of a success write equals the
`finalScore` field of the provider response, copied verbatim with no
aggregation and no clamping; in mock mode it is the fixed literal 82. -/
theorem C1_finalScore_is_provider_value (st : Storage) (i : Nat) (a : AppCtx)
    (resp : AIResponse)
    (hApp : st.applications i = some a) (hRows : st.screenings = []) :
    (getScreeningResult
        (processApplicationAI st i (Provider.real (ProviderOutcome.success resp))).1 i).map
        (fun row => row.finalScore) = some resp.finalScore ∧
    (getScreeningResult (processApplicationAI st i Provider.mock).1 i).map
        (fun row => row.finalScore) = some (some 82) := by
  constructor <;>
    simp [processApplicationAI, getScreeningResult, createScreeningResult,
          updateScreeningResult, applyUpdate, successUpdate, evaluate, mockResponse,
          hApp, hRows]

/-- C1 witness: the amended statement evaluated on the concrete state
`st0` and the concrete response `respWild`. -/
theorem C1_witness :
    (getScreeningResult
        (processApplicationAI st0 1 (Provider.real (ProviderOutcome.success respWild))).1 1).map
        (fun row => row.finalScore) = some respWild.finalScore ∧
    (getScreeningResult (processApplicationAI st0 1 Provider.mock).1 1).map
        (fun row => row.finalScore) = some (some 82) :=
  C1_finalScore_is_provider_value st0 1 appA respWild rfl rfl

/-- C2 counterexample: on the exact scenario A input (job requiring React
and Node.js with minYears 5; candidate with React, Node.js, TypeScript
and 6 years), the mock-mode run persists `rulesScore` 85 and `finalScore`
82, not the claimed 100 and 88: the code computes no skill-overlap or
experience score — it persists the provider (mock) values. -/
theorem C2_counterexample :
    st0.applications 1 = some appA ∧
    appA.job.requiredSkills = ["React", "Node.js"] ∧ appA.job.minYears = 5 ∧
    appA.seeker.skills = ["React", "Node.js", "TypeScript"] ∧
    appA.seeker.experienceYears = 6 ∧
    getScreeningResult (processApplicationAI st0 1 Provider.mock).1 1 =
      some { id := 1, applicationId := 1, rulesScore := some 85, semanticScore := some 80,
             finalScore := some 82,
             reasons := some ["Matches required skills", "Good experience"],
             aiSummary := some "Strong candidate with relevant experience.",
             aiQuestions := some ["Describe your experience with React.",
                                  "How do you handle state management?"],
             aiStatus := AiStatus.complete } ∧
    some (85 : Int) ≠ some (100 : Int) ∧ some (82 : Int) ≠ some (88 : Int) :=
  ⟨rfl, rfl, rfl, rfl, rfl, rfl, by decide, by decide⟩

/-- C2 (amended): no rules score is computed from the candidate and job
facts; the persisted scores in mock mode are the fixed provider constants
(85, 80, 82) whatever the facts are, so scenario A persists
`rulesScore` 85 and `finalScore` 82. -/
theorem C2_rulesScore_is_provider_constant (st : Storage) (i : Nat) (a : AppCtx)
    (hApp : st.applications i = some a) (hRows : st.screenings = []) :
    (getScreeningResult (processApplicationAI st i Provider.mock).1 i).map
        (fun row => (row.rulesScore, row.semanticScore, row.finalScore)) =
      some (some 85, some 80, some 82) := by
  simp [processApplicationAI, getScreeningResult, createScreeningResult,
        updateScreeningResult, applyUpdate, successUpdate, evaluate, mockResponse,
        hApp, hRows]

/-- C2 witness: the amended statement evaluated on the scenario A state
`st0`. -/
theorem C2_witness :
    (getScreeningResult (processApplicationAI st0 1 Provider.mock).1 1).map
        (fun row => (row.rulesScore, row.semanticScore, row.finalScore)) =
      some (some 85, some 80, some 82) :=
  C2_rulesScore_is_provider_constant st0 1 appA rfl rfl

/-- C3: for every application present in storage when screening is
triggered (with either no screening row yet, or its one existing row),
the settled run leaves the persisted row with `aiStatus` `complete` or
`failed` — never `pending` or `processing` — for every provider outcome. -/
theorem C3_settles_terminal (st : Storage) (i : Nat) (a : AppCtx) (p : Provider)
    (hApp : st.applications i = some a)
    (hRows : st.screenings = [] ∨ ∃ r, st.screenings = [r] ∧ r.applicationId = i) :
    ∃ row, getScreeningResult (processApplicationAI st i p).1 i = some row ∧
      (row.aiStatus = AiStatus.complete ∨ row.aiStatus = AiStatus.failed) := by
  rcases hRows with hRows | ⟨r, hRows, hm⟩
  · rcases p with _ | (⟨resp⟩ | _) <;>
      simp [processApplicationAI, getScreeningResult, createScreeningResult,
            updateScreeningResult, applyUpdate, successUpdate, evaluate,
            hApp, hRows]
  · rcases p with _ | (⟨resp⟩ | _) <;>
      simp [processApplicationAI, getScreeningResult, createScreeningResult,
            updateScreeningResult, applyUpdate, successUpdate, evaluate,
            hApp, hRows, hm]

/-- C3 witness: the theorem evaluated on the concrete fresh state `st0`
with the mock provider. -/
theorem C3_witness :
    ∃ row, getScreeningResult (processApplicationAI st0 1 Provider.mock).1 1 = some row ∧
      (row.aiStatus = AiStatus.complete ∨ row.aiStatus = AiStatus.failed) :=
  C3_settles_terminal st0 1 appA Provider.mock rfl (Or.inl rfl)

/-- C4 counterexample: on a fresh application the persisted statuses of
the run are `[processing, complete]` — the row is created directly in
`processing`; no `pending` state is ever written, contradicting the
claimed create-in-pending-then-transition behavior. -/
theorem C4_counterexample :
    ((processApplicationAI st0 1 Provider.mock).2.map writeStatus) =
      [some AiStatus.processing, some AiStatus.complete] ∧
    some AiStatus.pending ∉ ((processApplicationAI st0 1 Provider.mock).2.map writeStatus) := by
  decide

/-- C4 (amended): a trigger never leaves more than one screening row and
never writes a `pending` status; when a row already exists, the first
write of the run updates that same row to `processing` (whatever its
prior state, terminal states included) and no row is created; when none
exists, exactly one row is created, directly in `processing`. -/
theorem C4_single_row_reused (st : Storage) (i : Nat) (a : AppCtx) (p : Provider)
    (hApp : st.applications i = some a)
    (hRows : st.screenings = [] ∨ ∃ r, st.screenings = [r] ∧ r.applicationId = i) :
    (processApplicationAI st i p).1.screenings.length = 1 ∧
    (∀ e ∈ (processApplicationAI st i p).2, writeStatus e ≠ some AiStatus.pending) ∧
    (∀ r, st.screenings = [r] →
      ((processApplicationAI st i p).2.head? =
        some (WriteEvent.updated r.id { aiStatus := some AiStatus.processing }) ∧
       ∀ e ∈ (processApplicationAI st i p).2, ∀ row, e ≠ WriteEvent.created row)) ∧
    (st.screenings = [] →
      ∃ row, (processApplicationAI st i p).2.head? = some (WriteEvent.created row) ∧
        row.aiStatus = AiStatus.processing) := by
  rcases hRows with hRows | ⟨r, hRows, hm⟩
  · rcases p with _ | (⟨resp⟩ | _) <;>
      simp [processApplicationAI, getScreeningResult, createScreeningResult,
            updateScreeningResult, applyUpdate, successUpdate, evaluate, writeStatus,
            hApp, hRows]
  · rcases p with _ | (⟨resp⟩ | _) <;>
      simp [processApplicationAI, getScreeningResult, createScreeningResult,
            updateScreeningResult, applyUpdate, successUpdate, evaluate, writeStatus,
            hApp, hRows, hm]

/-- C4 witness: the amended statement evaluated on the concrete state
`stPrior`, whose application 1 already has a row in the terminal state
`complete`, with the mock provider. -/
theorem C4_witness :
    (processApplicationAI stPrior 1 Provider.mock).1.screenings.length = 1 ∧
    (∀ e ∈ (processApplicationAI stPrior 1 Provider.mock).2,
      writeStatus e ≠ some AiStatus.pending) ∧
    (∀ r, stPrior.screenings = [r] →
      ((processApplicationAI stPrior 1 Provider.mock).2.head? =
        some (WriteEvent.updated r.id { aiStatus := some AiStatus.processing }) ∧
       ∀ e ∈ (processApplicationAI stPrior 1 Provider.mock).2,
         ∀ row, e ≠ WriteEvent.created row)) ∧
    (stPrior.screenings = [] →
      ∃ row, (processApplicationAI stPrior 1 Provider.mock).2.head? =
          some (WriteEvent.created row) ∧
        row.aiStatus = AiStatus.processing) :=
  C4_single_row_reused stPrior 1 appA Provider.mock rfl (Or.inr ⟨rowPrior, rfl, rfl⟩)

/-- C5: when the provider call fails on an application whose screening row
already exists, the settled run sets only `aiStatus` to `failed`:
`rulesScore`, `semanticScore`, `finalScore`, `reasons`, `aiSummary` and
`aiQuestions` all keep the values they held before the run, whatever they
were. -/
theorem C5_failure_preserves_fields (st : Storage) (i : Nat) (a : AppCtx)
    (r : ScreeningResult)
    (hApp : st.applications i = some a)
    (hRows : st.screenings = [r]) (hm : r.applicationId = i) :
    ∃ row, getScreeningResult
        (processApplicationAI st i (Provider.real ProviderOutcome.failure)).1 i = some row ∧
      row.aiStatus = AiStatus.failed ∧
      row.rulesScore = r.rulesScore ∧ row.semanticScore = r.semanticScore ∧
      row.finalScore = r.finalScore ∧ row.reasons = r.reasons ∧
      row.aiSummary = r.aiSummary ∧ row.aiQuestions = r.aiQuestions := by
  simp [processApplicationAI, getScreeningResult, createScreeningResult,
        updateScreeningResult, applyUpdate, successUpdate, evaluate,
        hApp, hRows, hm]

/-- C5 witness: the theorem evaluated on `stPrior`, whose row carries the
scores of an earlier successful run, with a failing provider. -/
theorem C5_witness :
    ∃ row, getScreeningResult
        (processApplicationAI stPrior 1 (Provider.real ProviderOutcome.failure)).1 1 = some row ∧
      row.aiStatus = AiStatus.failed ∧
      row.rulesScore = rowPrior.rulesScore ∧ row.semanticScore = rowPrior.semanticScore ∧
      row.finalScore = rowPrior.finalScore ∧ row.reasons = rowPrior.reasons ∧
      row.aiSummary = rowPrior.aiSummary ∧ row.aiQuestions = rowPrior.aiQuestions :=
  C5_failure_preserves_fields stPrior 1 appA rowPrior rfl rfl rfl

/-- C6: when the application identifier resolves to no application (the
joined lookup yields nothing, also when the referenced job or seeker is
missing), the pipeline performs no writes — the storage state is returned
unchanged with an empty write trace — and returns normally. -/
theorem C6_notfound_no_writes (st : Storage) (i : Nat) (p : Provider)
    (h : st.applications i = none) :
    processApplicationAI st i p = (st, []) := by
  simp [processApplicationAI, h]

/-- C6 witness: the theorem evaluated on the empty state with an
identifier that matches nothing. -/
theorem C6_witness : processApplicationAI stNone 7 Provider.mock = (stNone, []) :=
  C6_notfound_no_writes stNone 7 Provider.mock rfl

/-- C7 counterexample: a provider response that parses as JSON with every
expected field missing leads to a completed run whose persisted
`rulesScore`, `semanticScore`, `finalScore`, `reasons`, `aiSummary` and
`aiQuestions` are all null — not the claimed safe defaults of score 0,
empty arrays and empty summary. -/
theorem C7_counterexample :
    getScreeningResult
        (processApplicationAI st0 1 (Provider.real (ProviderOutcome.success emptyResponse))).1 1 =
      some { id := 1, applicationId := 1, rulesScore := none, semanticScore := none,
             finalScore := none, reasons := none, aiSummary := none, aiQuestions := none,
             aiStatus := AiStatus.complete } ∧
    (none : Option Int) ≠ some 0 ∧ (none : Option String) ≠ some "" ∧
    (none : Option (List String)) ≠ some [] :=
  ⟨rfl, by decide, by decide, by decide⟩

/-- C7 (amended): a response field that is missing is skipped by the
success write — the row keeps whatever value that column held before the
run (null when never set) — and the run still completes with `aiStatus`
`complete`; no zero/empty defaults are substituted. -/
theorem C7_missing_fields_keep_prior (st : Storage) (i : Nat) (a : AppCtx)
    (r : ScreeningResult) (resp : AIResponse)
    (hApp : st.applications i = some a)
    (hRows : st.screenings = [r]) (hm : r.applicationId = i) :
    ∃ row, getScreeningResult
        (processApplicationAI st i (Provider.real (ProviderOutcome.success resp))).1 i = some row ∧
      row.aiStatus = AiStatus.complete ∧
      (resp.rulesScore = none → row.rulesScore = r.rulesScore) ∧
      (resp.semanticScore = none → row.semanticScore = r.semanticScore) ∧
      (resp.finalScore = none → row.finalScore = r.finalScore) ∧
      (resp.reasons = none → row.reasons = r.reasons) ∧
      (resp.summary = none → row.aiSummary = r.aiSummary) ∧
      (resp.questions = none → row.aiQuestions = r.aiQuestions) := by
  refine ⟨applyUpdate (applyUpdate r { aiStatus := some AiStatus.processing })
      (successUpdate resp), ?_, ?_, ?_, ?_, ?_, ?_, ?_, ?_⟩
  · simp [processApplicationAI, getScreeningResult, createScreeningResult,
          updateScreeningResult, applyUpdate, successUpdate, evaluate, hApp, hRows, hm]
  · simp [applyUpdate, successUpdate]
  · intro h; simp [applyUpdate, successUpdate, h]
  · intro h; simp [applyUpdate, successUpdate, h]
  · intro h; simp [applyUpdate, successUpdate, h]
  · intro h; simp [applyUpdate, successUpdate, h]
  · intro h; simp [applyUpdate, successUpdate, h]
  · intro h; simp [applyUpdate, successUpdate, h]

/-- C7 witness: the amended statement evaluated on `stPrior` with the
all-fields-missing response: the prior scores survive and the run
completes. -/
theorem C7_witness :
    ∃ row, getScreeningResult
        (processApplicationAI stPrior 1
          (Provider.real (ProviderOutcome.success emptyResponse))).1 1 = some row ∧
      row.aiStatus = AiStatus.complete ∧
      (emptyResponse.rulesScore = none → row.rulesScore = rowPrior.rulesScore) ∧
      (emptyResponse.semanticScore = none → row.semanticScore = rowPrior.semanticScore) ∧
      (emptyResponse.finalScore = none → row.finalScore = rowPrior.finalScore) ∧
      (emptyResponse.reasons = none → row.reasons = rowPrior.reasons) ∧
      (emptyResponse.summary = none → row.aiSummary = rowPrior.aiSummary) ∧
      (emptyResponse.questions = none → row.aiQuestions = rowPrior.aiQuestions) :=
  C7_missing_fields_keep_prior stPrior 1 appA rowPrior emptyResponse rfl rfl rfl

/-- C8 counterexample: a success write persists the provider values
verbatim — here rulesScore -5, semanticScore 150, finalScore 101 — so the
claimed [0,100] range invariant fails. -/
theorem C8_counterexample :
    getScreeningResult
        (processApplicationAI st0 1 (Provider.real (ProviderOutcome.success respOutOfRange))).1 1 =
      some { id := 1, applicationId := 1, rulesScore := some (-5), semanticScore := some 150,
             finalScore := some 101, reasons := none, aiSummary := none, aiQuestions := none,
             aiStatus := AiStatus.complete } ∧
    ¬(0 ≤ (-5 : Int)) ∧ ¬((150 : Int) ≤ 100) ∧ ¬((101 : Int) ≤ 100) :=
  ⟨rfl, by decide, by decide, by decide⟩

/-- C8 (amended): the success write copies the numeric provider fields
into the row verbatim, with no range validation or rounding; the [0,100]
property holds only for values the provider happens to send (as the mock
payload does). -/
theorem C8_scores_persisted_verbatim (st : Storage) (i : Nat) (a : AppCtx)
    (resp : AIResponse)
    (hApp : st.applications i = some a) (hRows : st.screenings = []) :
    (getScreeningResult
        (processApplicationAI st i (Provider.real (ProviderOutcome.success resp))).1 i).map
        (fun row => (row.rulesScore, row.semanticScore, row.finalScore)) =
      some (resp.rulesScore, resp.semanticScore, resp.finalScore) := by
  simp [processApplicationAI, getScreeningResult, createScreeningResult,
        updateScreeningResult, applyUpdate, successUpdate, evaluate,
        hApp, hRows]

/-- C8 witness: the amended statement evaluated on `st0` with the
out-of-range response. -/
theorem C8_witness :
    (getScreeningResult
        (processApplicationAI st0 1 (Provider.real (ProviderOutcome.success respOutOfRange))).1 1).map
        (fun row => (row.rulesScore, row.semanticScore, row.finalScore)) =
      some (respOutOfRange.rulesScore, respOutOfRange.semanticScore,
            respOutOfRange.finalScore) :=
  C8_scores_persisted_verbatim st0 1 appA respOutOfRange rfl rfl

/-- C9: in mock mode the evaluation step is a constant function of the
prompt (no outbound call is modelled or needed), and any two mock-mode
runs — different states, different applications, different facts —
persist identical `semanticScore`, `aiSummary` and `aiQuestions`, namely
the fixed mock literals. -/
theorem C9_mock_mode_constant (pr1 pr2 : String) (st st2 : Storage) (i i2 : Nat)
    (a a2 : AppCtx)
    (hApp : st.applications i = some a) (hRows : st.screenings = [])
    (hApp2 : st2.applications i2 = some a2) (hRows2 : st2.screenings = []) :
    evaluate Provider.mock pr1 = evaluate Provider.mock pr2 ∧
    (getScreeningResult (processApplicationAI st i Provider.mock).1 i).map
        (fun row => (row.semanticScore, row.aiSummary, row.aiQuestions)) =
      (getScreeningResult (processApplicationAI st2 i2 Provider.mock).1 i2).map
        (fun row => (row.semanticScore, row.aiSummary, row.aiQuestions)) ∧
    (getScreeningResult (processApplicationAI st i Provider.mock).1 i).map
        (fun row => (row.semanticScore, row.aiSummary, row.aiQuestions)) =
      some (some 80, some "Strong candidate with relevant experience.",
            some ["Describe your experience with React.",
                  "How do you handle state management?"]) := by
  refine ⟨rfl, ?_, ?_⟩ <;>
    simp [processApplicationAI, getScreeningResult, createScreeningResult,
          updateScreeningResult, applyUpdate, successUpdate, evaluate, mockResponse,
          hApp, hRows, hApp2, hRows2]

/-- C9 witness: the theorem evaluated on the two concrete states `st0`
and `stB`, whose applications have entirely different facts, with the
prompts the code would build for each. -/
theorem C9_witness :
    evaluate Provider.mock (buildPrompt appA) = evaluate Provider.mock (buildPrompt appB) ∧
    (getScreeningResult (processApplicationAI st0 1 Provider.mock).1 1).map
        (fun row => (row.semanticScore, row.aiSummary, row.aiQuestions)) =
      (getScreeningResult (processApplicationAI stB 2 Provider.mock).1 2).map
        (fun row => (row.semanticScore, row.aiSummary, row.aiQuestions)) ∧
    (getScreeningResult (processApplicationAI st0 1 Provider.mock).1 1).map
        (fun row => (row.semanticScore, row.aiSummary, row.aiQuestions)) =
      some (some 80, some "Strong candidate with relevant experience.",
            some ["Describe your experience with React.",
                  "How do you handle state management?"]) :=
  C9_mock_mode_constant (buildPrompt appA) (buildPrompt appB) st0 stB 1 2 appA appB
    rfl rfl rfl rfl

/-- C10: the manual trigger handler responds with the fixed body
`200 {message: "Processing started", status: "pending"}` for every
storage state, every numeric application identifier and every provider —
so the response on a missing application is identical to the response on
an existing one. -/
theorem C10_trigger_response_constant (st st2 : Storage) (i i2 : Nat) (p p2 : Provider) :
    (aiProcessHandler st i p).1 =
      { status := 200, message := "Processing started", bodyStatus := "pending" } ∧
    (aiProcessHandler st i p).1 = (aiProcessHandler st2 i2 p2).1 :=
  ⟨rfl, rfl⟩

end OneClickApply
